import Mathlib

/-!
Shallow embedding of `custom_components/enpal/sensor.py` from the
`Fisch37/enpal-homeassistant` integration.

The integration has two operations:
* `async_setup_entry` (field discovery, setup time): reads connection
  parameters from the config entry, queries InfluxDB for all fields seen in
  the last 5 minutes, deduplicates by field name, keeps fields with an entry
  in `FIELD_MAP`, purges the entity registry for this config entry and
  registers the new sensors.
* `EnpalSensor.async_update` (poll time): queries the latest value of the
  sensor's (measurement, field) pair, rounds it to 2 decimals, sets
  presentation metadata and attributes; any exception is caught and degrades
  the value to `None` while still recording a check timestamp.

Modelling conventions:
* Python floats are modelled as `ℚ`; `round(x, 2)` is `pyRound2` (round half
  to even at two decimals, matching Python's `round`).
* `datetime` values are opaque records of calendar fields (`PyDateTime`);
  `datetime.now()` and `datetime.utcnow()` are passed in as parameters.
* Python dicts that are only read/written by key (`_attr_extra_state_attributes`,
  the config bag) are association lists with `List.lookup` access; a dict
  write is a prepend, so the newest binding wins on lookup.
* Exceptions are `Except Unit`; the environment (query results, raw values)
  is passed in as data, with explicit failure constructors for each point of
  the code where an exception can originate (the query call, missing
  records/keys, `float()` conversion).
* Connection parameters (ip, port, token) are carried as strings; they are
  only threaded through, never inspected.
-/

namespace Enpal

instance {ε α : Type} [DecidableEq ε] [DecidableEq α] : DecidableEq (Except ε α) := fun x y =>
  match x, y with
  | .ok a, .ok b =>
    if h : a = b then .isTrue (by rw [h]) else .isFalse (fun hc => h (by injection hc))
  | .error a, .error b =>
    if h : a = b then .isTrue (by rw [h]) else .isFalse (fun hc => h (by injection hc))
  | .ok _, .error _ => .isFalse (fun hc => Except.noConfusion hc)
  | .error _, .ok _ => .isFalse (fun hc => Except.noConfusion hc)

/-- Calendar fields of a Python `datetime` value. -/
structure PyDateTime where
  year : ℕ
  month : ℕ
  day : ℕ
  hour : ℕ
  minute : ℕ
  second : ℕ
  microsecond : ℕ
deriving DecidableEq

/-- Model of `datetime.utcnow().replace(hour=0, minute=0, second=0, microsecond=0)`. -/
def midnightOf (d : PyDateTime) : PyDateTime :=
  { d with hour := 0, minute := 0, second := 0, microsecond := 0 }

/-- A value stored in `_attr_extra_state_attributes`. -/
inductive AttrVal where
  | time (t : PyDateTime)
  | str (s : String)
deriving DecidableEq

/-- Attribute dict: newest binding first, `List.lookup` access. -/
abbrev Attrs : Type := List (String × AttrVal)

/-- A dict write `attrs[k] = v`: prepend, so the newest binding wins. -/
def setAttr (a : Attrs) (k : String) (v : AttrVal) : Attrs := (k, v) :: a

/-- Raw `_value` of an InfluxDB record: either a value `float()` accepts, or
one on which `float()` raises. -/
inductive RawValue where
  | num (q : ℚ)
  | bad
deriving DecidableEq

/-- Python `float(value)` as used on a record value: succeeds on numeric
input, raises otherwise. -/
def pyFloat : RawValue → Except Unit ℚ
  | .num q => .ok q
  | .bad => .error ()

/-- Floor of a rational, computably (`Int.fdiv` is floored division). -/
def ratFloor (q : ℚ) : ℤ := Int.fdiv q.num q.den

/-- Round half to even to the nearest integer, as Python `round` does. The
fractional part of `q` is `r / q.den` with `r = q.num - f * q.den`, so the
three comparisons against one half are integer comparisons of `2 * r` with
the denominator. -/
def roundHalfEven (q : ℚ) : ℤ :=
  let f := ratFloor q
  let r := q.num - f * (q.den : ℤ)
  if 2 * r < (q.den : ℤ) then f
  else if (q.den : ℤ) < 2 * r then f + 1
  else if f % 2 = 0 then f else f + 1

/-- Python `round(x, 2)`. -/
def pyRound2 (q : ℚ) : ℚ := (roundHalfEven (q * 100) : ℚ) / 100

/-- One record of an update-query table; only `values["_value"]` is read
(`none` models a record without a `_value` key, whose access raises). -/
structure Record where
  value : Option RawValue
deriving DecidableEq

/-- One table of an update-query result. -/
structure Table where
  records : List Record
deriving DecidableEq

/-- `EnpalSensorConfig` NamedTuple. -/
structure EnpalSensorConfig where
  icon : String
  name : String
  device_class : String
  unit : String
deriving DecidableEq

/-- The static `FIELD_MAP` table, entry for entry. -/
def FIELD_MAP : List (String × EnpalSensorConfig) := [
  ("Power.DC.Total", ⟨"mdi:solar-power", "Enpal Solar Production Power", "power", "W"⟩),
  ("Power.House.Total", ⟨"mdi:home-lightning-bolt", "Enpal Power House Total", "power", "W"⟩),
  ("Power.External.Total", ⟨"mdi:home-lightning-bolt", "Enpal Power External Total", "power", "W"⟩),
  ("Energy.Consumption.Total.Day", ⟨"mdi:home-lightning-bolt", "Enpal Energy Consumption", "energy", "kWh"⟩),
  ("Energy.External.Total.Out.Day", ⟨"mdi:transmission-tower-export", "Enpal Energy External Out Day", "energy", "kWh"⟩),
  ("Energy.External.Total.In.Day", ⟨"mdi:transmission-tower-import", "Enpal Energy External In Day", "energy", "kWh"⟩),
  ("Energy.Production.Total.Day", ⟨"mdi:solar-power-variant", "Enpal Production Day", "energy", "kWh"⟩),
  ("Voltage.Phase.A", ⟨"mdi:lightning-bolt", "Enpal Voltage Phase A", "voltage", "V"⟩),
  ("Current.Phase.A", ⟨"mdi:lightning-bolt", "Enpal Ampere Phase A", "current", "A"⟩),
  ("Power.AC.Phase.A", ⟨"mdi:lightning-bolt", "Enpal Power Phase A", "power", "W"⟩),
  ("Voltage.Phase.B", ⟨"mdi:lightning-bolt", "Enpal Voltage Phase B", "voltage", "V"⟩),
  ("Current.Phase.B", ⟨"mdi:lightning-bolt", "Enpal Ampere Phase B", "current", "A"⟩),
  ("Power.AC.Phase.B", ⟨"mdi:lightning-bolt", "Enpal Power Phase B", "power", "W"⟩),
  ("Voltage.Phase.C", ⟨"mdi:lightning-bolt", "Enpal Voltage Phase C", "voltage", "V"⟩),
  ("Current.Phase.C", ⟨"mdi:lightning-bolt", "Enpal Ampere Phase C", "current", "A"⟩),
  ("Power.AC.Phase.C", ⟨"mdi:lightning-bolt", "Enpal Power Phase C", "power", "W"⟩),
  ("Current.String.1", ⟨"mdi:sun-angle", "Enpal Current String 1", "current", "A"⟩),
  ("Voltage.String.1", ⟨"mdi:sun-angle", "Enpal Voltage String 1", "voltage", "V"⟩),
  ("Power.DC.String.1", ⟨"mdi:sun-angle", "Enpal Power String 1", "power", "W"⟩),
  ("Current.String.2", ⟨"mdi:sun-angle", "Enpal Current String 2", "current", "A"⟩),
  ("Voltage.String.2", ⟨"mdi:sun-angle", "Enpal Voltage String 2", "voltage", "V"⟩),
  ("Power.DC.String.2", ⟨"mdi:sun-angle", "Enpal Power String 2", "power", "W"⟩),
  ("Power.Battery.Charge.Discharge", ⟨"mdi:battery-charging", "Enpal Battery Power", "power", "W"⟩),
  ("Energy.Battery.Charge.Level", ⟨"mdi:battery", "Enpal Battery Percent", "battery", "%"⟩),
  ("Energy.Battery.Charge.Day", ⟨"mdi:battery-arrow-up", "Enpal Battery Charge Day", "energy", "kWh"⟩),
  ("Energy.Battery.Discharge.Day", ⟨"mdi:battery-arrow-down", "Enpal Battery Discharge Day", "energy", "kWh"⟩),
  ("Energy.Battery.Charge.Total.Unit.1", ⟨"mdi:battery-arrow-up", "Enpal Battery Charge Total", "energy", "kWh"⟩),
  ("Energy.Battery.Discharge.Total.Unit.1", ⟨"mdi:battery-arrow-down", "Enpal Battery Discharge Total", "energy", "kWh"⟩),
  ("State.Wallbox.Connector.1.Charge", ⟨"mdi:ev-station", "Wallbox Charge Percent", "battery", "%"⟩),
  ("Power.Wallbox.Connector.1.Charging", ⟨"mdi:ev-station", "Wallbox Charging Power", "power", "W"⟩),
  ("Energy.Wallbox.Connector.1.Charged.Total", ⟨"mdi:ev-station", "Wallbox Charging Total", "energy", "Wh"⟩)]

/-- State of one `EnpalSensor` instance: the constructor-time fields plus the
mutable `_attr_*` presentation state. -/
structure EnpalSensor where
  field : String
  measurement : String
  ip : String
  port : String
  token : String
  enpal_device_class : String
  unit : String
  attr_icon : String
  attr_name : String
  attr_unique_id : String
  attr_native_value : Option ℚ
  attr_device_class : Option String
  attr_native_unit_of_measurement : Option String
  attr_state_class : Option String
  attr_extra_state_attributes : Attrs
  err_state : Option String
deriving DecidableEq

/-- `EnpalSensor.__init__`. -/
def initSensor (field measurement icon name ip port token device_class unit : String) :
    EnpalSensor :=
  { field := field
    measurement := measurement
    ip := ip
    port := port
    token := token
    enpal_device_class := device_class
    unit := unit
    attr_icon := icon
    attr_name := name
    attr_unique_id := "enpal_" ++ measurement ++ "_" ++ field
    attr_native_value := none
    attr_device_class := none
    attr_native_unit_of_measurement := none
    attr_state_class := none
    attr_extra_state_attributes := []
    err_state := none }

/-- The battery-icon selection chain for `Percent.Storage.Level`
(lines 188-209): a sequence of independent `if` statements, so the last
matching condition wins. `prev` is the icon before the chain runs. -/
def batteryIcon (prev : String) (v : ℚ) : String :=
  let i := prev
  let i := if 10 ≤ v then "mdi:battery-outline" else i
  let i := if v ≤ 19 ∧ 10 ≤ v then "mdi:battery-10" else i
  let i := if v ≤ 29 ∧ 20 ≤ v then "mdi:battery-20" else i
  let i := if v ≤ 39 ∧ 30 ≤ v then "mdi:battery-30" else i
  let i := if v ≤ 49 ∧ 40 ≤ v then "mdi:battery-40" else i
  let i := if v ≤ 59 ∧ 50 ≤ v then "mdi:battery-50" else i
  let i := if v ≤ 69 ∧ 60 ≤ v then "mdi:battery-60" else i
  let i := if v ≤ 79 ∧ 70 ≤ v then "mdi:battery-70" else i
  let i := if v ≤ 89 ∧ 80 ≤ v then "mdi:battery-80" else i
  let i := if v ≤ 99 ∧ 90 ≤ v then "mdi:battery-90" else i
  let i := if v = 100 then "mdi:battery" else i
  i

/-- Extraction of the raw value in `async_update`: `value = 0;
if tables: value = tables[0].records[0].values["_value"]`. An empty table
list yields integer `0`; a present table with no records, or a record
without a `_value` key, raises. -/
def extractValue : List Table → Except Unit RawValue
  | [] => .ok (.num 0)
  | t :: _ =>
    match t.records with
    | [] => .error ()
    | r :: _ =>
      match r.value with
      | none => .error ()
      | some rv => .ok rv

/-- Everything in the `try` block of `async_update` that can raise: the query
itself (its outcome is the `queryResult` argument), record access, and
`float()` conversion. -/
def updateValue (queryResult : Except Unit (List Table)) : Except Unit ℚ := do
  let tables ← queryResult
  let rv ← extractValue tables
  pyFloat rv

/-- The write-out part of the `try` block (lines 171-209), reached only once
`float(value)` has succeeded with `v`. `nowLocal` is `datetime.now()`,
`nowUtc` is `datetime.utcnow()`. -/
def successUpdate (s : EnpalSensor) (v : ℚ) (nowLocal nowUtc : PyDateTime) : EnpalSensor :=
  let native := pyRound2 v
  let nu := s.unit
  let attrs0 :=
    setAttr (setAttr (setAttr s.attr_extra_state_attributes
      "last_check" (.time nowLocal)) "field" (.str s.field)) "measurement" (.str s.measurement)
  let step1 : Attrs × String :=
    if nu = "kWh" then
      (setAttr attrs0 "last_reset" (.time (midnightOf nowUtc)), "total_increasing")
    else (attrs0, "measurement")
  let step2 : Attrs × String :=
    if nu = "Wh" then
      (setAttr step1.1 "last_reset" (.time (midnightOf nowUtc)), "total_increasing")
    else step1
  let icon :=
    if s.field = "Percent.Storage.Level" then batteryIcon s.attr_icon native
    else s.attr_icon
  { s with
    attr_native_value := some native
    attr_device_class := some s.enpal_device_class
    attr_native_unit_of_measurement := some nu
    attr_state_class := some step2.2
    attr_extra_state_attributes := step2.1
    attr_icon := icon }

/-- The `except` block of `async_update` (lines 211-215). -/
def failUpdate (s : EnpalSensor) (nowLocal : PyDateTime) : EnpalSensor :=
  { s with
    err_state := some "Error"
    attr_native_value := none
    attr_extra_state_attributes :=
      setAttr s.attr_extra_state_attributes "last_check" (.time nowLocal) }

/-- `EnpalSensor.async_update`: a total function — every exception of the
`try` block lands in `failUpdate`, so the call never raises to its caller. -/
def asyncUpdate (s : EnpalSensor) (queryResult : Except Unit (List Table))
    (nowLocal nowUtc : PyDateTime) : EnpalSensor :=
  match updateValue queryResult with
  | .ok v => successUpdate s v nowLocal nowUtc
  | .error _ => failUpdate s nowLocal

/-- Config bag: a dict read by string key (values are carried as strings). -/
abbrev Config : Type := List (String × String)

/-- `config.update(config_entry.options)` when the options dict is truthy:
an options binding shadows a base binding with the same key. -/
def mergeConfig (base opts : Config) : Config :=
  if opts.isEmpty then base else opts ++ base

/-- One query result row of the discovery query, as read by the setup loop:
`table.records[0].values["_field"]` and `... ["_measurement"]`. -/
structure SetupRow where
  field : String
  measurement : String
deriving DecidableEq

/-- The discovery loop of `async_setup_entry` (lines 105-124).
`encountered` is the `encountered_fields` set (a list queried by membership;
the loop inserts the field once on sighting and once more after a successful
lookup, as the source does) and `toAdd` the `to_add` accumulator. -/
def discoverLoop (ip port token : String) :
    List SetupRow → List String → List EnpalSensor → List EnpalSensor
  | [], _, toAdd => toAdd
  | row :: rest, encountered, toAdd =>
    if row.field ∈ encountered then
      discoverLoop ip port token rest encountered toAdd
    else
      let encountered := row.field :: encountered
      match FIELD_MAP.lookup row.field with
      | none => discoverLoop ip port token rest encountered toAdd
      | some field_config =>
        discoverLoop ip port token rest (row.field :: encountered)
          (toAdd ++ [initSensor row.field row.measurement field_config.icon
            field_config.name ip port token field_config.device_class field_config.unit])

/-- Observable effects of one `async_setup_entry` run. -/
structure SetupOutcome where
  queried : Bool
  removed : List String
  added : List EnpalSensor
deriving DecidableEq

/-- Dict access after a successful containment check. -/
def configGet (c : Config) (k : String) : String := (c.lookup k).getD ""

/-- `async_setup_entry` (lines 81-133). The discovery query's outcome is the
`queryResult` argument (`.error` when `get_tables` raises, in which case the
exception propagates: the run aborts before any registry removal);
`registryEntries` are the entity ids currently registered for this config
entry. Missing connection parameters abort the run with no query, no
removal and no additions. -/
def asyncSetupEntry (base opts : Config) (queryResult : Except Unit (List SetupRow))
    (registryEntries : List String) : Except Unit SetupOutcome :=
  let config := mergeConfig base opts
  if (config.lookup "enpal_host_ip").isNone then
    .ok ⟨false, [], []⟩
  else if (config.lookup "enpal_host_port").isNone then
    .ok ⟨false, [], []⟩
  else if (config.lookup "enpal_token").isNone then
    .ok ⟨false, [], []⟩
  else
    match queryResult with
    | .error e => .error e
    | .ok rows =>
      let toAdd := discoverLoop (configGet config "enpal_host_ip")
        (configGet config "enpal_host_port") (configGet config "enpal_token") rows [] []
      .ok ⟨true, registryEntries, toAdd⟩

/-- Entity ids registered for the config entry after a setup run: the run
removes every id in `out.removed` from the registry, then registers the new
sensors. -/
def registryAfter (registryEntries : List String) (out : SetupOutcome) : List String :=
  (registryEntries.filter (fun e => e ∉ out.removed)) ++
    out.added.map (fun s => s.attr_unique_id)

/-- A concrete sensor, as built by discovery for a `Power.DC.Total` sample
under measurement `inverter` with connection parameters `h`, `1`, `t`. -/
def sampleSensor : EnpalSensor :=
  initSensor "Power.DC.Total" "inverter" "mdi:solar-power" "Enpal Solar Production Power"
    "h" "1" "t" "power" "W"

/-- A concrete sensor with an energy accumulation unit, as built by discovery
for an `Energy.Production.Total.Day` sample under measurement `inverter`. -/
def kwhSensor : EnpalSensor :=
  initSensor "Energy.Production.Total.Day" "inverter" "mdi:solar-power-variant"
    "Enpal Production Day" "h" "1" "t" "energy" "kWh"

/-- A concrete sensor carrying the legacy storage-percentage field that the
battery-icon rule tests (such a sensor is never produced by discovery, but
`async_update` is defined on it all the same). -/
def pslSensor : EnpalSensor :=
  initSensor "Percent.Storage.Level" "inverter" "mdi:battery" "Battery Level"
    "h" "1" "t" "battery" "%"

/-- A concrete local timestamp used to instantiate update runs. -/
def sampleNow : PyDateTime := ⟨2026, 10, 12, 9, 30, 0, 0⟩

/-- A concrete UTC timestamp used to instantiate update runs. -/
def sampleUtc : PyDateTime := ⟨2026, 10, 12, 7, 30, 15, 250⟩

/-- A query result holding a single record with numeric value `q`. -/
def singleTable (q : ℚ) : List Table := [⟨[⟨some (.num q)⟩]⟩]

section Lemmas

lemma asyncUpdate_ok (s : EnpalSensor) (qr : Except Unit (List Table)) (q : ℚ)
    (nowLocal nowUtc : PyDateTime) (h : updateValue qr = .ok q) :
    asyncUpdate s qr nowLocal nowUtc = successUpdate s q nowLocal nowUtc := by
  unfold asyncUpdate
  rw [h]

lemma asyncUpdate_err (s : EnpalSensor) (qr : Except Unit (List Table)) (e : Unit)
    (nowLocal nowUtc : PyDateTime) (h : updateValue qr = .error e) :
    asyncUpdate s qr nowLocal nowUtc = failUpdate s nowLocal := by
  unfold asyncUpdate
  rw [h]

lemma updateValue_singleTable (q : ℚ) : updateValue (.ok (singleTable q)) = .ok q := rfl

lemma lookup_setAttr_same (a : Attrs) (k : String) (v : AttrVal) :
    (setAttr a k v).lookup k = some v := by
  simp [setAttr, List.lookup]

lemma lookup_setAttr_other (a : Attrs) (k k' : String) (v : AttrVal) (h : k' ≠ k) :
    (setAttr a k v).lookup k' = a.lookup k' := by
  simp [setAttr, List.lookup, beq_false_of_ne h]

lemma successUpdate_native (s : EnpalSensor) (v : ℚ) (nowLocal nowUtc : PyDateTime) :
    (successUpdate s v nowLocal nowUtc).attr_native_value = some (pyRound2 v) := rfl

lemma successUpdate_icon (s : EnpalSensor) (v : ℚ) (nowLocal nowUtc : PyDateTime) :
    (successUpdate s v nowLocal nowUtc).attr_icon =
      if s.field = "Percent.Storage.Level" then batteryIcon s.attr_icon (pyRound2 v)
      else s.attr_icon := rfl

end Lemmas

/-- C1: every update invocation on which the query, record access or float
conversion raises is caught by the `except` block: the call returns normally
(`asyncUpdate` is a total function into `EnpalSensor`, so no exception
escapes to the caller), the current value is set to absent, and a check
timestamp is still recorded in the attribute mapping. -/
theorem enpal_update_failure_caught (s : EnpalSensor) (qr : Except Unit (List Table))
    (nowLocal nowUtc : PyDateTime) (e : Unit) (hfail : updateValue qr = .error e) :
    (asyncUpdate s qr nowLocal nowUtc).attr_native_value = none ∧
    (asyncUpdate s qr nowLocal nowUtc).attr_extra_state_attributes.lookup "last_check" =
      some (.time nowLocal) := by
  rw [asyncUpdate_err s qr e nowLocal nowUtc hfail]
  exact ⟨rfl, lookup_setAttr_same _ _ _⟩

/-- Witness for C1: a concrete failing query leaves the value absent and
records the check timestamp. -/
theorem enpal_update_failure_caught_witness :
    (asyncUpdate sampleSensor (.error ()) sampleNow sampleUtc).attr_native_value = none ∧
    (asyncUpdate sampleSensor (.error ()) sampleNow sampleUtc).attr_extra_state_attributes.lookup
      "last_check" = some (.time sampleNow) :=
  enpal_update_failure_caught sampleSensor (.error ()) sampleNow sampleUtc () rfl

/-- C4: an update whose query succeeds with zero result tables stores the
present numeric value `0.0`, not an absent value. -/
theorem enpal_update_empty_result_zero (s : EnpalSensor) (nowLocal nowUtc : PyDateTime) :
    (asyncUpdate s (.ok []) nowLocal nowUtc).attr_native_value = some 0 := by
  rw [asyncUpdate_ok s (.ok []) 0 nowLocal nowUtc rfl, successUpdate_native]
  norm_num [pyRound2, roundHalfEven, ratFloor]

/-- C9: a successful update stores the queried value converted to a rational
and rounded half-to-even at two decimal places; in particular `123.456`
rounds to `123.46`. -/
theorem enpal_update_rounds_two_decimals (s : EnpalSensor) (qr : Except Unit (List Table))
    (q : ℚ) (nowLocal nowUtc : PyDateTime) (hok : updateValue qr = .ok q) :
    (asyncUpdate s qr nowLocal nowUtc).attr_native_value = some (pyRound2 q) ∧
    pyRound2 (123.456 : ℚ) = (123.46 : ℚ) := by
  rw [asyncUpdate_ok s qr q nowLocal nowUtc hok]
  exact ⟨successUpdate_native s q nowLocal nowUtc, by with_unfolding_all rfl⟩

/-- Witness for C9: an update whose query returns `123.456` stores `123.46`. -/
theorem enpal_update_rounds_two_decimals_witness :
    (asyncUpdate sampleSensor (.ok (singleTable 123.456)) sampleNow sampleUtc).attr_native_value =
      some (pyRound2 123.456) ∧ pyRound2 (123.456 : ℚ) = (123.46 : ℚ) :=
  enpal_update_rounds_two_decimals sampleSensor (.ok (singleTable 123.456)) 123.456
    sampleNow sampleUtc rfl

/-- C5: when any of the three required connection parameters is missing from
the merged configuration bag, discovery aborts with zero partial state: the
query is never issued, no entities are registered, and nothing is removed
from the entity registry. -/
theorem enpal_setup_missing_config_aborts (base opts : Config)
    (qr : Except Unit (List SetupRow)) (reg : List String)
    (hmiss : (mergeConfig base opts).lookup "enpal_host_ip" = none ∨
      (mergeConfig base opts).lookup "enpal_host_port" = none ∨
      (mergeConfig base opts).lookup "enpal_token" = none) :
    asyncSetupEntry base opts qr reg = .ok ⟨false, [], []⟩ := by
  unfold asyncSetupEntry
  rcases hmiss with h | h | h <;> simp [h]

/-- Witness for C5: a config bag lacking the host ip aborts discovery with no
query, no removals and no additions. -/
theorem enpal_setup_missing_config_aborts_witness :
    asyncSetupEntry [("enpal_host_port", "1"), ("enpal_token", "t")] []
      (.ok [⟨"Power.DC.Total", "inverter"⟩]) ["old-id"] = .ok ⟨false, [], []⟩ :=
  enpal_setup_missing_config_aborts [("enpal_host_port", "1"), ("enpal_token", "t")] []
    (.ok [⟨"Power.DC.Total", "inverter"⟩]) ["old-id"] (Or.inl (by decide))

/-- C3: a successful update sets the state class to `measurement` unless the
sensor's unit is `kWh` or `Wh`, in which case it sets the state class to
`total_increasing` and records a daily reset timestamp at 00:00:00 UTC of
the current day in the attribute mapping. -/
theorem enpal_update_state_class_and_reset (s : EnpalSensor) (qr : Except Unit (List Table))
    (q : ℚ) (nowLocal nowUtc : PyDateTime) (hok : updateValue qr = .ok q) :
    ((s.unit ≠ "kWh" ∧ s.unit ≠ "Wh") →
      (asyncUpdate s qr nowLocal nowUtc).attr_state_class = some "measurement") ∧
    ((s.unit = "kWh" ∨ s.unit = "Wh") →
      (asyncUpdate s qr nowLocal nowUtc).attr_state_class = some "total_increasing" ∧
      (asyncUpdate s qr nowLocal nowUtc).attr_extra_state_attributes.lookup "last_reset" =
        some (.time ⟨nowUtc.year, nowUtc.month, nowUtc.day, 0, 0, 0, 0⟩)) := by
  rw [asyncUpdate_ok s qr q nowLocal nowUtc hok]
  constructor
  · rintro ⟨h1, h2⟩
    simp [successUpdate, h1, h2]
  · rintro (h1 | h1) <;>
      simp [successUpdate, h1, midnightOf, setAttr, List.lookup]

/-- Witness for C3: a concrete successful update of a `kWh` sensor yields
state class `total_increasing` and a midnight-UTC reset timestamp. -/
theorem enpal_update_state_class_and_reset_witness :
    ((kwhSensor.unit ≠ "kWh" ∧ kwhSensor.unit ≠ "Wh") →
      (asyncUpdate kwhSensor (.ok (singleTable 5)) sampleNow sampleUtc).attr_state_class =
        some "measurement") ∧
    ((kwhSensor.unit = "kWh" ∨ kwhSensor.unit = "Wh") →
      (asyncUpdate kwhSensor (.ok (singleTable 5)) sampleNow sampleUtc).attr_state_class =
        some "total_increasing" ∧
      (asyncUpdate kwhSensor
          (.ok (singleTable 5)) sampleNow sampleUtc).attr_extra_state_attributes.lookup
        "last_reset" =
        some (.time ⟨sampleUtc.year, sampleUtc.month, sampleUtc.day, 0, 0, 0, 0⟩)) :=
  enpal_update_state_class_and_reset kwhSensor (.ok (singleTable 5)) 5 sampleNow sampleUtc rfl

/-- C8 counterexample: on a failed update the `except` block records only the
check timestamp, so for a freshly constructed sensor whose first poll fails,
the field-name and measurement-name keys are not written, contradicting the
claim that all three keys are written on every update invocation. -/
theorem enpal_update_attrs_claim_counterexample :
    (asyncUpdate sampleSensor (.error ()) sampleNow sampleUtc).attr_extra_state_attributes.lookup
      "field" = none ∧
    (asyncUpdate sampleSensor (.error ()) sampleNow sampleUtc).attr_extra_state_attributes.lookup
      "measurement" = none := by decide

/-- C8 (amended): on every successful update the check-timestamp, field-name
and measurement-name keys are all written; on a failed update only the
check-timestamp key is written and every other key keeps its value; on
either path no key other than the written ones (including the daily-reset
key) changes, and no key is ever removed. -/
theorem enpal_update_attrs_frame (s : EnpalSensor) (qr : Except Unit (List Table))
    (nowLocal nowUtc : PyDateTime) :
    (∀ k, k ≠ "last_check" → k ≠ "field" → k ≠ "measurement" → k ≠ "last_reset" →
      (asyncUpdate s qr nowLocal nowUtc).attr_extra_state_attributes.lookup k =
        s.attr_extra_state_attributes.lookup k) ∧
    (∀ q, updateValue qr = .ok q →
      (asyncUpdate s qr nowLocal nowUtc).attr_extra_state_attributes.lookup "last_check" =
          some (.time nowLocal) ∧
      (asyncUpdate s qr nowLocal nowUtc).attr_extra_state_attributes.lookup "field" =
          some (.str s.field) ∧
      (asyncUpdate s qr nowLocal nowUtc).attr_extra_state_attributes.lookup "measurement" =
          some (.str s.measurement)) ∧
    (∀ e, updateValue qr = .error e →
      (asyncUpdate s qr nowLocal nowUtc).attr_extra_state_attributes.lookup "last_check" =
          some (.time nowLocal) ∧
      ∀ k, k ≠ "last_check" →
        (asyncUpdate s qr nowLocal nowUtc).attr_extra_state_attributes.lookup k =
          s.attr_extra_state_attributes.lookup k) := by
  cases hqv : updateValue qr with
  | error e =>
    rw [asyncUpdate_err s qr e nowLocal nowUtc hqv]
    refine ⟨fun k hk1 _ _ _ => lookup_setAttr_other _ _ _ _ hk1, fun q hq => ?_,
      fun e' _ => ⟨lookup_setAttr_same _ _ _,
        fun k hk1 => lookup_setAttr_other _ _ _ _ hk1⟩⟩
    exact Except.noConfusion hq
  | ok q =>
    rw [asyncUpdate_ok s qr q nowLocal nowUtc hqv]
    refine ⟨fun k hk1 hk2 hk3 hk4 => ?_, fun q' _ => ?_, fun e he => ?_⟩
    · by_cases hk : s.unit = "kWh"
      · have hw : s.unit ≠ "Wh" := by rw [hk]; decide
        simp [successUpdate, hk, hw, setAttr, List.lookup, beq_false_of_ne hk1,
          beq_false_of_ne hk2, beq_false_of_ne hk3, beq_false_of_ne hk4]
      · by_cases hw : s.unit = "Wh" <;>
          simp [successUpdate, hk, hw, setAttr, List.lookup, beq_false_of_ne hk1,
            beq_false_of_ne hk2, beq_false_of_ne hk3, beq_false_of_ne hk4]
    · by_cases hk : s.unit = "kWh"
      · have hw : s.unit ≠ "Wh" := by rw [hk]; decide
        refine ⟨?_, ?_, ?_⟩ <;> simp [successUpdate, hk, hw, setAttr, List.lookup]
      · by_cases hw : s.unit = "Wh" <;>
          (refine ⟨?_, ?_, ?_⟩ <;> simp [successUpdate, hk, hw, setAttr, List.lookup])
    · exact Except.noConfusion he

/-- Witness for C8 (amended): concrete successful and failed updates show the
written keys and an untouched user key. -/
theorem enpal_update_attrs_frame_witness :
    (asyncUpdate sampleSensor (.ok (singleTable 55)) sampleNow
        sampleUtc).attr_extra_state_attributes.lookup "other_key" =
      sampleSensor.attr_extra_state_attributes.lookup "other_key" ∧
    (asyncUpdate sampleSensor (.ok (singleTable 55)) sampleNow
        sampleUtc).attr_extra_state_attributes.lookup "field" =
      some (.str sampleSensor.field) ∧
    (asyncUpdate sampleSensor (.error ()) sampleNow
        sampleUtc).attr_extra_state_attributes.lookup "last_check" =
      some (.time sampleNow) :=
  ⟨(enpal_update_attrs_frame sampleSensor (.ok (singleTable 55)) sampleNow sampleUtc).1
      "other_key" (by decide) (by decide) (by decide) (by decide),
    ((enpal_update_attrs_frame sampleSensor (.ok (singleTable 55)) sampleNow sampleUtc).2.1
      55 rfl).2.1,
    ((enpal_update_attrs_frame sampleSensor (.error ()) sampleNow sampleUtc).2.2 () rfl).1⟩

/-- C6: a discovery run that reaches registration removes every entity
previously registered for the config entry before adding the new set, so the
registry afterwards holds exactly the identifiers of the newly built
entities. -/
theorem enpal_setup_registry_hard_reset (base opts : Config)
    (qr : Except Unit (List SetupRow)) (reg : List String) (out : SetupOutcome)
    (h : asyncSetupEntry base opts qr reg = .ok out) (hq : out.queried = true) :
    out.removed = reg ∧
    registryAfter reg out = out.added.map (fun s => s.attr_unique_id) := by
  simp only [asyncSetupEntry] at h
  split_ifs at h
  · injection h with h
    rw [← h] at hq
    exact Bool.noConfusion hq
  · injection h with h
    rw [← h] at hq
    exact Bool.noConfusion hq
  · injection h with h
    rw [← h] at hq
    exact Bool.noConfusion hq
  · cases qr with
    | error e => exact Except.noConfusion h
    | ok rows =>
      injection h with h
      subst h
      refine ⟨rfl, ?_⟩
      have hemp : reg.filter (fun e => decide (e ∉ reg)) = [] := by
        rw [List.filter_eq_nil_iff]
        intro a ha
        simp [ha]
      simp only [registryAfter, hemp, List.nil_append]

/-- Witness for C6: a concrete run with one previously registered id removes
it, and the registry afterwards holds exactly the new sensor's id. -/
theorem enpal_setup_registry_hard_reset_witness :
    (SetupOutcome.mk true ["old-id"] [sampleSensor]).removed = ["old-id"] ∧
    registryAfter ["old-id"] (SetupOutcome.mk true ["old-id"] [sampleSensor]) =
      [sampleSensor].map (fun s => s.attr_unique_id) :=
  enpal_setup_registry_hard_reset
    [("enpal_host_ip", "h"), ("enpal_host_port", "1"), ("enpal_token", "t")] []
    (.ok [⟨"Power.DC.Total", "inverter"⟩]) ["old-id"]
    (SetupOutcome.mk true ["old-id"] [sampleSensor]) (by decide) rfl

section BatteryIconLemmas

lemma batteryIcon_eq_100 (p : String) (v : ℚ) (h : v = 100) :
    batteryIcon p v = "mdi:battery" := by
  simp only [batteryIcon]
  rw [if_pos h]

lemma batteryIcon_bucket10 (p : String) (v : ℚ) (h1 : 10 ≤ v) (h2 : v ≤ 19) :
    batteryIcon p v = "mdi:battery-10" := by
  have c100 : ¬(v = 100) := by rintro rfl; linarith
  have c90 : ¬(v ≤ 99 ∧ 90 ≤ v) := by rintro ⟨a, b⟩; linarith
  have c80 : ¬(v ≤ 89 ∧ 80 ≤ v) := by rintro ⟨a, b⟩; linarith
  have c70 : ¬(v ≤ 79 ∧ 70 ≤ v) := by rintro ⟨a, b⟩; linarith
  have c60 : ¬(v ≤ 69 ∧ 60 ≤ v) := by rintro ⟨a, b⟩; linarith
  have c50 : ¬(v ≤ 59 ∧ 50 ≤ v) := by rintro ⟨a, b⟩; linarith
  have c40 : ¬(v ≤ 49 ∧ 40 ≤ v) := by rintro ⟨a, b⟩; linarith
  have c30 : ¬(v ≤ 39 ∧ 30 ≤ v) := by rintro ⟨a, b⟩; linarith
  have c20 : ¬(v ≤ 29 ∧ 20 ≤ v) := by rintro ⟨a, b⟩; linarith
  simp only [batteryIcon]
  rw [if_neg c100, if_neg c90, if_neg c80, if_neg c70, if_neg c60, if_neg c50,
    if_neg c40, if_neg c30, if_neg c20, if_pos ⟨h2, h1⟩]

lemma batteryIcon_bucket20 (p : String) (v : ℚ) (h1 : 20 ≤ v) (h2 : v ≤ 29) :
    batteryIcon p v = "mdi:battery-20" := by
  have c100 : ¬(v = 100) := by rintro rfl; linarith
  have c90 : ¬(v ≤ 99 ∧ 90 ≤ v) := by rintro ⟨a, b⟩; linarith
  have c80 : ¬(v ≤ 89 ∧ 80 ≤ v) := by rintro ⟨a, b⟩; linarith
  have c70 : ¬(v ≤ 79 ∧ 70 ≤ v) := by rintro ⟨a, b⟩; linarith
  have c60 : ¬(v ≤ 69 ∧ 60 ≤ v) := by rintro ⟨a, b⟩; linarith
  have c50 : ¬(v ≤ 59 ∧ 50 ≤ v) := by rintro ⟨a, b⟩; linarith
  have c40 : ¬(v ≤ 49 ∧ 40 ≤ v) := by rintro ⟨a, b⟩; linarith
  have c30 : ¬(v ≤ 39 ∧ 30 ≤ v) := by rintro ⟨a, b⟩; linarith
  simp only [batteryIcon]
  rw [if_neg c100, if_neg c90, if_neg c80, if_neg c70, if_neg c60, if_neg c50,
    if_neg c40, if_neg c30, if_pos ⟨h2, h1⟩]

lemma batteryIcon_bucket30 (p : String) (v : ℚ) (h1 : 30 ≤ v) (h2 : v ≤ 39) :
    batteryIcon p v = "mdi:battery-30" := by
  have c100 : ¬(v = 100) := by rintro rfl; linarith
  have c90 : ¬(v ≤ 99 ∧ 90 ≤ v) := by rintro ⟨a, b⟩; linarith
  have c80 : ¬(v ≤ 89 ∧ 80 ≤ v) := by rintro ⟨a, b⟩; linarith
  have c70 : ¬(v ≤ 79 ∧ 70 ≤ v) := by rintro ⟨a, b⟩; linarith
  have c60 : ¬(v ≤ 69 ∧ 60 ≤ v) := by rintro ⟨a, b⟩; linarith
  have c50 : ¬(v ≤ 59 ∧ 50 ≤ v) := by rintro ⟨a, b⟩; linarith
  have c40 : ¬(v ≤ 49 ∧ 40 ≤ v) := by rintro ⟨a, b⟩; linarith
  simp only [batteryIcon]
  rw [if_neg c100, if_neg c90, if_neg c80, if_neg c70, if_neg c60, if_neg c50,
    if_neg c40, if_pos ⟨h2, h1⟩]

lemma batteryIcon_bucket40 (p : String) (v : ℚ) (h1 : 40 ≤ v) (h2 : v ≤ 49) :
    batteryIcon p v = "mdi:battery-40" := by
  have c100 : ¬(v = 100) := by rintro rfl; linarith
  have c90 : ¬(v ≤ 99 ∧ 90 ≤ v) := by rintro ⟨a, b⟩; linarith
  have c80 : ¬(v ≤ 89 ∧ 80 ≤ v) := by rintro ⟨a, b⟩; linarith
  have c70 : ¬(v ≤ 79 ∧ 70 ≤ v) := by rintro ⟨a, b⟩; linarith
  have c60 : ¬(v ≤ 69 ∧ 60 ≤ v) := by rintro ⟨a, b⟩; linarith
  have c50 : ¬(v ≤ 59 ∧ 50 ≤ v) := by rintro ⟨a, b⟩; linarith
  simp only [batteryIcon]
  rw [if_neg c100, if_neg c90, if_neg c80, if_neg c70, if_neg c60, if_neg c50,
    if_pos ⟨h2, h1⟩]

lemma batteryIcon_bucket50 (p : String) (v : ℚ) (h1 : 50 ≤ v) (h2 : v ≤ 59) :
    batteryIcon p v = "mdi:battery-50" := by
  have c100 : ¬(v = 100) := by rintro rfl; linarith
  have c90 : ¬(v ≤ 99 ∧ 90 ≤ v) := by rintro ⟨a, b⟩; linarith
  have c80 : ¬(v ≤ 89 ∧ 80 ≤ v) := by rintro ⟨a, b⟩; linarith
  have c70 : ¬(v ≤ 79 ∧ 70 ≤ v) := by rintro ⟨a, b⟩; linarith
  have c60 : ¬(v ≤ 69 ∧ 60 ≤ v) := by rintro ⟨a, b⟩; linarith
  simp only [batteryIcon]
  rw [if_neg c100, if_neg c90, if_neg c80, if_neg c70, if_neg c60, if_pos ⟨h2, h1⟩]

lemma batteryIcon_bucket60 (p : String) (v : ℚ) (h1 : 60 ≤ v) (h2 : v ≤ 69) :
    batteryIcon p v = "mdi:battery-60" := by
  have c100 : ¬(v = 100) := by rintro rfl; linarith
  have c90 : ¬(v ≤ 99 ∧ 90 ≤ v) := by rintro ⟨a, b⟩; linarith
  have c80 : ¬(v ≤ 89 ∧ 80 ≤ v) := by rintro ⟨a, b⟩; linarith
  have c70 : ¬(v ≤ 79 ∧ 70 ≤ v) := by rintro ⟨a, b⟩; linarith
  simp only [batteryIcon]
  rw [if_neg c100, if_neg c90, if_neg c80, if_neg c70, if_pos ⟨h2, h1⟩]

lemma batteryIcon_bucket70 (p : String) (v : ℚ) (h1 : 70 ≤ v) (h2 : v ≤ 79) :
    batteryIcon p v = "mdi:battery-70" := by
  have c100 : ¬(v = 100) := by rintro rfl; linarith
  have c90 : ¬(v ≤ 99 ∧ 90 ≤ v) := by rintro ⟨a, b⟩; linarith
  have c80 : ¬(v ≤ 89 ∧ 80 ≤ v) := by rintro ⟨a, b⟩; linarith
  simp only [batteryIcon]
  rw [if_neg c100, if_neg c90, if_neg c80, if_pos ⟨h2, h1⟩]

lemma batteryIcon_bucket80 (p : String) (v : ℚ) (h1 : 80 ≤ v) (h2 : v ≤ 89) :
    batteryIcon p v = "mdi:battery-80" := by
  have c100 : ¬(v = 100) := by rintro rfl; linarith
  have c90 : ¬(v ≤ 99 ∧ 90 ≤ v) := by rintro ⟨a, b⟩; linarith
  simp only [batteryIcon]
  rw [if_neg c100, if_neg c90, if_pos ⟨h2, h1⟩]

lemma batteryIcon_bucket90 (p : String) (v : ℚ) (h1 : 90 ≤ v) (h2 : v ≤ 99) :
    batteryIcon p v = "mdi:battery-90" := by
  have c100 : ¬(v = 100) := by rintro rfl; linarith
  simp only [batteryIcon]
  rw [if_neg c100, if_pos ⟨h2, h1⟩]

end BatteryIconLemmas

/-- C7: on a successful update of a sensor whose field is
`Percent.Storage.Level`, a stored value in the bucket `[10k, 10k + 9]` for
`k` in `1..9` yields icon `mdi:battery-10k` (the last matching condition of
the chain wins, which realises the monotonic 10-percent buckets), and a
stored value of exactly `100` yields icon `mdi:battery`. -/
theorem enpal_update_battery_icon_buckets (s : EnpalSensor)
    (qr : Except Unit (List Table)) (q : ℚ) (nowLocal nowUtc : PyDateTime) (k : ℕ)
    (hfield : s.field = "Percent.Storage.Level") (hok : updateValue qr = .ok q) :
    (1 ≤ k → k ≤ 9 → ((10 * k : ℕ) : ℚ) ≤ pyRound2 q → pyRound2 q ≤ ((10 * k + 9 : ℕ) : ℚ) →
      (asyncUpdate s qr nowLocal nowUtc).attr_icon = "mdi:battery-" ++ toString (10 * k)) ∧
    (pyRound2 q = 100 → (asyncUpdate s qr nowLocal nowUtc).attr_icon = "mdi:battery") := by
  rw [asyncUpdate_ok s qr q nowLocal nowUtc hok, successUpdate_icon, if_pos hfield]
  constructor
  · intro hk1 hk9 hlo hhi
    interval_cases k
    · rw [show "mdi:battery-" ++ toString (10 * 1) = "mdi:battery-10" from by decide]
      exact batteryIcon_bucket10 _ _ (by push_cast at hlo; linarith) (by push_cast at hhi; linarith)
    · rw [show "mdi:battery-" ++ toString (10 * 2) = "mdi:battery-20" from by decide]
      exact batteryIcon_bucket20 _ _ (by push_cast at hlo; linarith) (by push_cast at hhi; linarith)
    · rw [show "mdi:battery-" ++ toString (10 * 3) = "mdi:battery-30" from by decide]
      exact batteryIcon_bucket30 _ _ (by push_cast at hlo; linarith) (by push_cast at hhi; linarith)
    · rw [show "mdi:battery-" ++ toString (10 * 4) = "mdi:battery-40" from by decide]
      exact batteryIcon_bucket40 _ _ (by push_cast at hlo; linarith) (by push_cast at hhi; linarith)
    · rw [show "mdi:battery-" ++ toString (10 * 5) = "mdi:battery-50" from by decide]
      exact batteryIcon_bucket50 _ _ (by push_cast at hlo; linarith) (by push_cast at hhi; linarith)
    · rw [show "mdi:battery-" ++ toString (10 * 6) = "mdi:battery-60" from by decide]
      exact batteryIcon_bucket60 _ _ (by push_cast at hlo; linarith) (by push_cast at hhi; linarith)
    · rw [show "mdi:battery-" ++ toString (10 * 7) = "mdi:battery-70" from by decide]
      exact batteryIcon_bucket70 _ _ (by push_cast at hlo; linarith) (by push_cast at hhi; linarith)
    · rw [show "mdi:battery-" ++ toString (10 * 8) = "mdi:battery-80" from by decide]
      exact batteryIcon_bucket80 _ _ (by push_cast at hlo; linarith) (by push_cast at hhi; linarith)
    · rw [show "mdi:battery-" ++ toString (10 * 9) = "mdi:battery-90" from by decide]
      exact batteryIcon_bucket90 _ _ (by push_cast at hlo; linarith) (by push_cast at hhi; linarith)
  · intro h100
    exact batteryIcon_eq_100 s.attr_icon (pyRound2 q) h100

/-- Witness for C7: a stored value of 55 yields `mdi:battery-50` and a stored
value of 100 yields `mdi:battery` on a `Percent.Storage.Level` sensor. -/
theorem enpal_update_battery_icon_buckets_witness :
    (asyncUpdate pslSensor (.ok (singleTable 55)) sampleNow sampleUtc).attr_icon =
      "mdi:battery-" ++ toString (10 * 5) ∧
    (asyncUpdate pslSensor (.ok (singleTable 100)) sampleNow sampleUtc).attr_icon =
      "mdi:battery" := by
  have h55 : pyRound2 55 = 55 := by with_unfolding_all rfl
  have h100 : pyRound2 100 = 100 := by with_unfolding_all rfl
  constructor
  · exact (enpal_update_battery_icon_buckets pslSensor (.ok (singleTable 55)) 55
      sampleNow sampleUtc 5 rfl rfl).1 (by norm_num) (by norm_num)
      (by rw [h55]; norm_num) (by rw [h55]; norm_num)
  · exact (enpal_update_battery_icon_buckets pslSensor (.ok (singleTable 100)) 100
      sampleNow sampleUtc 5 rfl rfl).2 h100

section DiscoveryLemmas

lemma discoverLoop_cons_seen (ip port token : String) (row : SetupRow)
    (rest : List SetupRow) (enc : List String) (acc : List EnpalSensor)
    (h : row.field ∈ enc) :
    discoverLoop ip port token (row :: rest) enc acc =
      discoverLoop ip port token rest enc acc := by
  simp only [discoverLoop]
  rw [if_pos h]

lemma discoverLoop_cons_none (ip port token : String) (row : SetupRow)
    (rest : List SetupRow) (enc : List String) (acc : List EnpalSensor)
    (h1 : row.field ∉ enc) (h2 : FIELD_MAP.lookup row.field = none) :
    discoverLoop ip port token (row :: rest) enc acc =
      discoverLoop ip port token rest (row.field :: enc) acc := by
  simp only [discoverLoop]
  rw [if_neg h1, h2]

lemma discoverLoop_cons_some (ip port token : String) (row : SetupRow)
    (rest : List SetupRow) (enc : List String) (acc : List EnpalSensor)
    (cfg : EnpalSensorConfig) (h1 : row.field ∉ enc)
    (h2 : FIELD_MAP.lookup row.field = some cfg) :
    discoverLoop ip port token (row :: rest) enc acc =
      discoverLoop ip port token rest (row.field :: row.field :: enc)
        (acc ++ [initSensor row.field row.measurement cfg.icon cfg.name ip port token
          cfg.device_class cfg.unit]) := by
  simp only [discoverLoop]
  rw [if_neg h1, h2]

lemma discoverLoop_filter_of_seen (ip port token : String) (rows : List SetupRow)
    (enc : List String) (acc : List EnpalSensor) (f : String) (hf : f ∈ enc) :
    (discoverLoop ip port token rows enc acc).filter (fun s => s.field = f) =
      acc.filter (fun s => s.field = f) := by
  induction rows generalizing enc acc with
  | nil => rfl
  | cons row rest ih =>
    by_cases hmem : row.field ∈ enc
    · rw [discoverLoop_cons_seen ip port token row rest enc acc hmem]
      exact ih enc acc hf
    · have hne : row.field ≠ f := fun hcon => hmem (hcon ▸ hf)
      cases hlk : FIELD_MAP.lookup row.field with
      | none =>
        rw [discoverLoop_cons_none ip port token row rest enc acc hmem hlk]
        exact ih _ _ (List.mem_cons_of_mem _ hf)
      | some cfg =>
        rw [discoverLoop_cons_some ip port token row rest enc acc cfg hmem hlk,
          ih _ _ (List.mem_cons_of_mem _ (List.mem_cons_of_mem _ hf))]
        simp [List.filter_append, initSensor, hne]

lemma discoverLoop_filter_first (ip port token : String) (rows : List SetupRow)
    (enc : List String) (acc : List EnpalSensor) (f : String) (cfg : EnpalSensorConfig)
    (r : SetupRow) (hf : f ∉ enc) (hlk : FIELD_MAP.lookup f = some cfg)
    (hfind : rows.find? (fun row => row.field = f) = some r) :
    (discoverLoop ip port token rows enc acc).filter (fun s => s.field = f) =
      acc.filter (fun s => s.field = f) ++
        [initSensor f r.measurement cfg.icon cfg.name ip port token
          cfg.device_class cfg.unit] := by
  induction rows generalizing enc acc with
  | nil => simp at hfind
  | cons row rest ih =>
    by_cases hrf : row.field = f
    · have hr : r = row := by
        rw [List.find?_cons_of_pos _ (by simp [hrf])] at hfind
        exact (Option.some.inj hfind).symm
      have hmem : row.field ∉ enc := hrf ▸ hf
      have hlk2 : FIELD_MAP.lookup row.field = some cfg := by rw [hrf]; exact hlk
      rw [discoverLoop_cons_some ip port token row rest enc acc cfg hmem hlk2,
        discoverLoop_filter_of_seen ip port token rest _ _ f
          (hrf ▸ List.mem_cons_self row.field _), hr]
      simp [List.filter_append, initSensor, hrf]
    · rw [List.find?_cons_of_neg _ (by simp [hrf])] at hfind
      by_cases hmem : row.field ∈ enc
      · rw [discoverLoop_cons_seen ip port token row rest enc acc hmem]
        exact ih _ _ hf hfind
      · have hf' : f ∉ row.field :: enc := by
          intro hcon
          rcases List.mem_cons.mp hcon with hcon | hcon
          · exact hrf hcon.symm
          · exact hf hcon
        cases hlk2 : FIELD_MAP.lookup row.field with
        | none =>
          rw [discoverLoop_cons_none ip port token row rest enc acc hmem hlk2]
          exact ih _ _ hf' hfind
        | some cfg2 =>
          have hf2 : f ∉ row.field :: row.field :: enc := by
            intro hcon
            rcases List.mem_cons.mp hcon with hcon | hcon
            · exact hrf hcon.symm
            · exact hf' hcon
          rw [discoverLoop_cons_some ip port token row rest enc acc cfg2 hmem hlk2,
            ih _ _ hf2 hfind]
          simp [List.filter_append, initSensor, hrf]

lemma discoverLoop_mem_added (ip port token : String) (rows : List SetupRow)
    (enc : List String) (acc : List EnpalSensor) (s : EnpalSensor)
    (hs : s ∈ discoverLoop ip port token rows enc acc) :
    s ∈ acc ∨ ∃ row ∈ rows, ∃ cfg, FIELD_MAP.lookup row.field = some cfg ∧
      s = initSensor row.field row.measurement cfg.icon cfg.name ip port token
        cfg.device_class cfg.unit := by
  induction rows generalizing enc acc with
  | nil => exact Or.inl hs
  | cons row rest ih =>
    by_cases hmem : row.field ∈ enc
    · rw [discoverLoop_cons_seen ip port token row rest enc acc hmem] at hs
      rcases ih _ _ hs with h | ⟨row', hrow', hcfg⟩
      · exact Or.inl h
      · exact Or.inr ⟨row', List.mem_cons_of_mem _ hrow', hcfg⟩
    · cases hlk : FIELD_MAP.lookup row.field with
      | none =>
        rw [discoverLoop_cons_none ip port token row rest enc acc hmem hlk] at hs
        rcases ih _ _ hs with h | ⟨row', hrow', hcfg⟩
        · exact Or.inl h
        · exact Or.inr ⟨row', List.mem_cons_of_mem _ hrow', hcfg⟩
      | some cfg =>
        rw [discoverLoop_cons_some ip port token row rest enc acc cfg hmem hlk] at hs
        rcases ih _ _ hs with h | ⟨row', hrow', hcfg⟩
        · rcases List.mem_append.mp h with h | h
          · exact Or.inl h
          · exact Or.inr ⟨row, List.mem_cons_self _ _, cfg, hlk, List.mem_singleton.mp h⟩
        · exact Or.inr ⟨row', List.mem_cons_of_mem _ hrow', hcfg⟩

lemma asyncUpdate_icon_of_ne (s : EnpalSensor) (hne : s.field ≠ "Percent.Storage.Level")
    (uqr : Except Unit (List Table)) (nowLocal nowUtc : PyDateTime) :
    (asyncUpdate s uqr nowLocal nowUtc).attr_icon = s.attr_icon := by
  cases hqv : updateValue uqr with
  | error e => rw [asyncUpdate_err s uqr e nowLocal nowUtc hqv]; rfl
  | ok q => rw [asyncUpdate_ok s uqr q nowLocal nowUtc hqv, successUpdate_icon, if_neg hne]

end DiscoveryLemmas

/-- C2 counterexample: two query results with the same field name under
different measurements, where the shared field name has no entry in
`FIELD_MAP`, produce zero entities rather than exactly one, so the claim as
stated fails without the descriptor-table condition. -/
theorem enpal_discovery_dedup_counterexample :
    ((discoverLoop "h" "1" "t"
        [⟨"Percent.Storage.Level", "m1"⟩, ⟨"Percent.Storage.Level", "m2"⟩] [] []).filter
      (fun s => s.field = "Percent.Storage.Level")).length ≠ 1 := by decide

/-- C2 (amended): whenever the shared field name has a descriptor in
`FIELD_MAP`, a query result sequence containing that field (in particular
one carrying it two or more times under different measurements) yields
exactly one entity for it, seeded with the measurement of the
first-encountered result in query result order; all later results with that
field name are discarded. -/
theorem enpal_discovery_dedup_first_wins (ip port token : String) (rows : List SetupRow)
    (f : String) (cfg : EnpalSensorConfig) (r : SetupRow)
    (hlk : FIELD_MAP.lookup f = some cfg)
    (hfind : rows.find? (fun row => row.field = f) = some r) :
    (discoverLoop ip port token rows [] []).filter (fun s => s.field = f) =
      [initSensor f r.measurement cfg.icon cfg.name ip port token
        cfg.device_class cfg.unit] :=
  discoverLoop_filter_first ip port token rows [] [] f cfg r (by simp) hlk hfind

/-- Witness for C2 (amended): two results for `Power.DC.Total` under
measurements `inverter` then `powerSensor` yield exactly the one sensor
seeded with `inverter`. -/
theorem enpal_discovery_dedup_first_wins_witness :
    (discoverLoop "h" "1" "t"
        [⟨"Power.DC.Total", "inverter"⟩, ⟨"Power.DC.Total", "powerSensor"⟩] [] []).filter
      (fun s => s.field = "Power.DC.Total") = [sampleSensor] :=
  enpal_discovery_dedup_first_wins "h" "1" "t"
    [⟨"Power.DC.Total", "inverter"⟩, ⟨"Power.DC.Total", "powerSensor"⟩] "Power.DC.Total"
    ⟨"mdi:solar-power", "Enpal Solar Production Power", "power", "W"⟩
    ⟨"Power.DC.Total", "inverter"⟩ (by decide) (by decide)

/-- C10: the field `Percent.Storage.Level` tested by the battery-icon rule
is not a key of `FIELD_MAP`; every entity built by discovery has a field
that is a `FIELD_MAP` key, hence never that field, so the battery-icon tier
selection is unreachable for discovered entities: no update ever changes
their icon. -/
theorem enpal_battery_icon_unreachable (base opts : Config)
    (qr : Except Unit (List SetupRow)) (reg : List String) (out : SetupOutcome)
    (h : asyncSetupEntry base opts qr reg = .ok out) (s : EnpalSensor) (hs : s ∈ out.added) :
    FIELD_MAP.lookup "Percent.Storage.Level" = none ∧
    (FIELD_MAP.lookup s.field).isSome = true ∧
    s.field ≠ "Percent.Storage.Level" ∧
    ∀ uqr nowLocal nowUtc, (asyncUpdate s uqr nowLocal nowUtc).attr_icon = s.attr_icon := by
  have hpsl : FIELD_MAP.lookup "Percent.Storage.Level" = none := by decide
  simp only [asyncSetupEntry] at h
  split_ifs at h
  · injection h with h
    rw [← h] at hs
    exact absurd hs (List.not_mem_nil s)
  · injection h with h
    rw [← h] at hs
    exact absurd hs (List.not_mem_nil s)
  · injection h with h
    rw [← h] at hs
    exact absurd hs (List.not_mem_nil s)
  · cases qr with
    | error e => exact Except.noConfusion h
    | ok rows =>
      injection h with h
      rw [← h] at hs
      rcases discoverLoop_mem_added _ _ _ rows [] [] s hs with hemp | ⟨row, _, cfg, hlk, hsens⟩
      · exact absurd hemp (List.not_mem_nil s)
      · have hfield : s.field = row.field := by rw [hsens]; rfl
        have hne : s.field ≠ "Percent.Storage.Level" := by
          intro hcon
          rw [hfield] at hcon
          rw [hcon, hpsl] at hlk
          exact Option.noConfusion hlk
        refine ⟨hpsl, ?_, hne, fun uqr nowLocal nowUtc =>
          asyncUpdate_icon_of_ne s hne uqr nowLocal nowUtc⟩
        rw [hfield, hlk]
        rfl

/-- Witness for C10: a concrete discovery run yields the `Power.DC.Total`
sensor; its field is mapped, differs from `Percent.Storage.Level`, and a
concrete update leaves its icon unchanged. -/
theorem enpal_battery_icon_unreachable_witness :
    FIELD_MAP.lookup "Percent.Storage.Level" = none ∧
    (FIELD_MAP.lookup sampleSensor.field).isSome = true ∧
    sampleSensor.field ≠ "Percent.Storage.Level" ∧
    (asyncUpdate sampleSensor (.ok (singleTable 55)) sampleNow sampleUtc).attr_icon =
      sampleSensor.attr_icon := by
  have t := enpal_battery_icon_unreachable
    [("enpal_host_ip", "h"), ("enpal_host_port", "1"), ("enpal_token", "t")] []
    (.ok [⟨"Power.DC.Total", "inverter"⟩]) ["old-id"]
    ⟨true, ["old-id"], [sampleSensor]⟩ (by decide) sampleSensor (by decide)
  exact ⟨t.1, t.2.1, t.2.2.1, t.2.2.2 (.ok (singleTable 55)) sampleNow sampleUtc⟩

end Enpal
